import Mathlib

/-!
Verification of the sysrepo error-accumulation and logging subsystem
(`src/log.h` and its specification).

The repository ships only the header `src/log.h`: the convenience macros
(`SR_ERRINFO_MEM`, `SR_ERRINFO_LOCK`, `SR_ERRINFO_COND`,
`SR_CHECK_ARG_APIRET`, ...) are source code and are embedded directly from
their macro text; the function bodies (`sr_api_ret`, `sr_errinfo_add`,
`sr_errinfo_new`, `sr_errinfo_merge`, `sr_log`, the libyang harvesters) live
in `log.c`, which is not part of the sources, so those are modelled from the
specification, as marked in each doc comment.
-/

namespace Sysrepo

/-- Log levels, most to least severe; lower numeric value = more severe
(SR_LL_NONE = 0, then error, warning, info, debug). -/
def SR_LL_NONE : Nat := 0

/-- Error log level. -/
def SR_LL_ERR : Nat := 1

/-- Warning log level. -/
def SR_LL_WRN : Nat := 2

/-- Info log level. -/
def SR_LL_INF : Nat := 3

/-- Debug log level. -/
def SR_LL_DBG : Nat := 4

/-- Modelled from the spec: the closed set of error kinds (`sr_error_t`;
its defining enum lives in `sysrepo_types.h`, not under the sources).
Only constructors used by `log.h` plus the success code are listed. -/
inductive sr_error_t where
  | SR_ERR_OK
  | SR_ERR_INVAL_ARG
  | SR_ERR_LY
  | SR_ERR_SYS
  | SR_ERR_NO_MEMORY
  | SR_ERR_INTERNAL
  | SR_ERR_VALIDATION_FAILED
  | SR_ERR_TIME_OUT
deriving DecidableEq, Repr

/-- The platform ETIMEDOUT errno value (Linux); the code only ever compares
a return value against it for equality. -/
def ETIMEDOUT : Nat := 110

/-- printf-style rendering restricted to the `%s` conversions used by the
macros of `log.h`: each `%s` consumes the next string argument, every other
character is copied verbatim. -/
def sprintfAux : List Char → List String → List Char
  | [], _ => []
  | '%' :: 's' :: rest, a :: args => a.data ++ sprintfAux rest args
  | '%' :: 's' :: rest, [] => sprintfAux rest []
  | c :: rest, args => c :: sprintfAux rest args

/-- Render a format string with its `%s` arguments (eager rendering, as the
spec requires: no deferred formatting once stored). -/
def sprintf (fmt : String) (args : List String) : String :=
  ⟨sprintfAux fmt.data args⟩

/-- Modelled from the spec: the platform `strerror` text for an errno value,
opaque content ("implementers should treat the generated message as opaque"). -/
def strerror (err : Nat) : String := "errno " ++ toString err

/-- One Error Record (`sr_error_info_err_t`): a severity-independent code,
the fully rendered message (none when constructed without a message format),
the optional structured payload, and whether the record was already emitted
to the Log Dispatcher when it was created (the spec's "logged as it is
created" path, as opposed to being logged at collapse). -/
structure sr_error_info_err_t where
  err_code : sr_error_t
  message : Option String
  err_format : Option String
  err_data : Option String
  logged : Bool
deriving DecidableEq, Repr

/-- An Error Chain (`sr_error_info_t`): ordered records, oldest first.
The empty list stands for both an absent chain (NULL handle) and an empty
one, which the spec requires consumers to treat identically. -/
abbrev sr_error_info_t := List sr_error_info_err_t

/-- A call into the Log Dispatcher: severity level and rendered message. -/
abbrev LogCall := Nat × String

/-- Construct a record. -/
def mkErr (err_code : sr_error_t) (message err_format err_data : Option String)
    (logged : Bool) : sr_error_info_err_t :=
  { err_code := err_code, message := message, err_format := err_format,
    err_data := err_data, logged := logged }

/-- Modelled from the spec: `sr_errinfo_add` (body in `log.c`, not under the
sources) — renders the message eagerly and appends one record to the chain
(creating the chain when the handle was empty). `alloc_ok` is the allocation
oracle: when allocation fails, the previously accumulated records are kept
unchanged and a no-memory record signals the condition to the caller instead
of the requested record ("allocation failure during append degrades
gracefully rather than corrupting the chain"). `sr_errinfo_add` itself does
not log (its doc only says "Add a new error"). -/
def sr_errinfo_add (alloc_ok : Bool) (err_info : sr_error_info_t)
    (err_code : sr_error_t) (err_format err_data : Option String)
    (msg_format : Option String) (vargs : List String) : sr_error_info_t :=
  if alloc_ok then
    err_info ++ [mkErr err_code (msg_format.map (fun f => sprintf f vargs))
      err_format err_data false]
  else
    err_info ++ [mkErr sr_error_t.SR_ERR_NO_MEMORY none none none false]

/-- Modelled from the spec: `sr_errinfo_new` (body in `log.c`, not under the
sources) — "Log the error and add the error into an error info structure":
renders the message once, appends the record, and emits it to the Log
Dispatcher at error severity, marking it as already logged. A NULL message
format (the out-of-memory convenience shape) appends a record with no
message and emits nothing. Returns the grown chain and the log calls made. -/
def sr_errinfo_new (err_info : sr_error_info_t) (err_code : sr_error_t)
    (msg_format : Option String) (vargs : List String) :
    sr_error_info_t × List LogCall :=
  match msg_format with
  | none => (err_info ++ [mkErr err_code none none none false], [])
  | some fmt =>
      let msg := sprintf fmt vargs
      (err_info ++ [mkErr err_code (some msg) none none true],
       [(SR_LL_ERR, msg)])

/-- Macro `SR_ERRINFO_MEM` from `log.h`: out-of-memory record, NULL message
format. -/
def SR_ERRINFO_MEM (err_info : sr_error_info_t) :
    sr_error_info_t × List LogCall :=
  sr_errinfo_new err_info sr_error_t.SR_ERR_NO_MEMORY none []

/-- Macro `SR_ERRINFO_LOCK` from `log.h`: mutex-lock failure; timeout code
exactly when the primitive returned ETIMEDOUT, internal error otherwise. -/
def SR_ERRINFO_LOCK (err_info : sr_error_info_t) (func : String) (ret : Nat) :
    sr_error_info_t × List LogCall :=
  sr_errinfo_new err_info
    (if ret = ETIMEDOUT then sr_error_t.SR_ERR_TIME_OUT
     else sr_error_t.SR_ERR_INTERNAL)
    (some "Locking a mutex failed (%s: %s).") [func, strerror ret]

/-- Macro `SR_ERRINFO_COND` from `log.h`: condition-wait failure; timeout
code exactly when the primitive returned ETIMEDOUT, internal error
otherwise. -/
def SR_ERRINFO_COND (err_info : sr_error_info_t) (func : String) (ret : Nat) :
    sr_error_info_t × List LogCall :=
  sr_errinfo_new err_info
    (if ret = ETIMEDOUT then sr_error_t.SR_ERR_TIME_OUT
     else sr_error_t.SR_ERR_INTERNAL)
    (some "Waiting on a conditional variable failed (%s: %s).")
    [func, strerror ret]

/-- The session, restricted to what this subsystem touches: the chain the
API Boundary Collapse stores for later inspection by the caller. -/
structure sr_session_ctx_t where
  err_info : sr_error_info_t
deriving DecidableEq, Repr

/-- The records of a chain the Collapse emits to the Log Dispatcher: exactly
the ones not already logged when they were created, in chain order. -/
def collapse_emits (chain : sr_error_info_t) : sr_error_info_t :=
  chain.filter (fun r => !r.logged)

/-- Modelled from the spec: `sr_api_ret` (body in `log.c`, not under the
sources) — the API Boundary Collapse, `resolve(session, chain)` of the spec:
an empty/absent chain yields the success status and an empty stored chain;
otherwise the chain is stored on the session, every record not yet logged at
creation is logged at error severity in chronological order, and the status
is derived from the first record's kind. Returns the updated session, the
status, and the log calls made. -/
def sr_api_ret (session : sr_session_ctx_t) (err_info : sr_error_info_t) :
    sr_session_ctx_t × sr_error_t × List LogCall :=
  match err_info with
  | [] => ({ session with err_info := [] }, sr_error_t.SR_ERR_OK, [])
  | e :: rest =>
      ({ session with err_info := e :: rest }, e.err_code,
       (collapse_emits (e :: rest)).map
         (fun r => (SR_LL_ERR, r.message.getD "")))

/-- Macro `SR_CHECK_ARG_APIRET` from `log.h`: when the violation condition
holds, append one invalid-argument record naming the function and return the
Collapse of the chain (`some` result = the early return; `none` = fall
through to the operation body). The returned log calls are the creation log
of the new record followed by the Collapse's own calls. -/
def SR_CHECK_ARG_APIRET (cond : Bool) (session : sr_session_ctx_t)
    (err_info : sr_error_info_t) (func : String) :
    Option (sr_session_ctx_t × sr_error_t × List LogCall) :=
  if cond then
    let n := sr_errinfo_new err_info sr_error_t.SR_ERR_INVAL_ARG
      (some "Invalid arguments for function \"%s\".") [func]
    let r := sr_api_ret session n.1
    some (r.1, r.2.1, n.2 ++ r.2.2)
  else none

/-- Modelled from the spec: `sr_errinfo_merge` (body in `log.c`, not under
the sources) — appends every record of the source chain onto the destination
preserving order, moving the records; the source is consumed (left empty and
unusable). Returns (destination afterwards, source afterwards). -/
def sr_errinfo_merge (err_info err_info2 : sr_error_info_t) :
    sr_error_info_t × sr_error_info_t :=
  (err_info ++ err_info2, [])

/-- The process-wide Log Sink Configuration: the two threshold variables
declared in `log.h` (`sr_stderr_ll`, `sr_syslog_ll`) and whether a callback
(`sr_lcb`) is registered. -/
structure LogConfig where
  sr_stderr_ll : Nat
  sr_syslog_ll : Nat
  sr_lcb : Bool
deriving DecidableEq, Repr

/-- The three sinks. -/
inductive Sink where
  | console
  | syslog
  | callback
deriving DecidableEq, Repr

/-- Modelled from the spec: `sr_log` (body in `log.c`, not under the
sources) — renders the message once, then independently for each sink
compares the level against that sink's threshold ("at least as severe as":
lower numeric severity is more important, so a message is admitted when
`ll ≤ threshold`) and forwards the same rendered text to every admitting
sink. Returns the delivered (sink, text) events. -/
def sr_log (cfg : LogConfig) (ll : Nat) (fmt : String) (args : List String) :
    List (Sink × String) :=
  let msg := sprintf fmt args
  (if ll ≤ cfg.sr_stderr_ll then [(Sink.console, msg)] else []) ++
    (if ll ≤ cfg.sr_syslog_ll then [(Sink.syslog, msg)] else []) ++
      (if cfg.sr_lcb then [(Sink.callback, msg)] else [])

/-- One pending error of the external schema/validation engine (libyang):
code/message/path collapse to the generated descriptive message, which the
spec declares opaque content. -/
structure ly_err where
  msg : String
deriving DecidableEq, Repr

/-- The engine context, restricted to its ordered pending-error queue. -/
structure ly_ctx where
  err : List ly_err
deriving DecidableEq, Repr

/-- Translation of one engine error into an Error Record; harvested records
are logged as they are created (the harvesters "log the error(s) ... and add
them"). -/
def ly_err_record (e : ly_err) : sr_error_info_err_t :=
  mkErr sr_error_t.SR_ERR_LY (some e.msg) none none true

/-- Modelled from the spec: `sr_errinfo_new_ly` (body in `log.c`, not under
the sources) — harvest_all: translates every pending engine error into a
record appended in queue order, logs each at error severity, and clears the
engine's queue so the same errors are never reported twice. The optional
data tree only enriches the opaque message content. Returns (chain, engine
context, log calls) afterwards. -/
def sr_errinfo_new_ly (err_info : sr_error_info_t) (ctx : ly_ctx)
    (_data : Option Unit) : sr_error_info_t × ly_ctx × List LogCall :=
  (err_info ++ ctx.err.map ly_err_record, { err := [] },
   ctx.err.map (fun e => (SR_LL_ERR, e.msg)))

/-- Modelled from the spec: `sr_errinfo_new_ly_first` (body in `log.c`, not
under the sources) — harvest_first: considers only the first pending engine
error, translating and logging just that one. -/
def sr_errinfo_new_ly_first (err_info : sr_error_info_t) (ctx : ly_ctx) :
    sr_error_info_t × ly_ctx × List LogCall :=
  match ctx.err with
  | [] => (err_info, ctx, [])
  | e :: _ => (err_info ++ [ly_err_record e], ctx, [(SR_LL_ERR, e.msg)])

/-- Modelled from the spec: `sr_log_wrn_ly` (body in `log.c`, not under the
sources) — warn_all: forwards every pending engine error to the Log
Dispatcher at warning severity without creating records and without clearing
the engine's queue. Returns the engine context afterwards and the log
calls. -/
def sr_log_wrn_ly (ctx : ly_ctx) : ly_ctx × List LogCall :=
  (ctx, ctx.err.map (fun e => (SR_LL_WRN, e.msg)))

/-- The code of the most recently appended record of a chain, if any. -/
def lastCode (chain : sr_error_info_t) : Option sr_error_t :=
  chain.getLast?.map (fun r => r.err_code)

/-- The message of the most recently appended record of a chain, if any. -/
def lastMsg (chain : sr_error_info_t) : Option (Option String) :=
  chain.getLast?.map (fun r => r.message)

/-- The record synthesized by `SR_CHECK_ARG_APIRET`: invalid-argument kind,
rendered message naming the function, logged at creation. -/
def inval_arg_record (func : String) : sr_error_info_err_t :=
  mkErr sr_error_t.SR_ERR_INVAL_ARG
    (some ("Invalid arguments for function \"" ++ func ++ "\".")) none none true

/-- A configuration with console threshold = warning, syslog threshold =
error, no callback registered (the configuration of the spec's sink
independence test). -/
def wrnErrCfg : LogConfig :=
  { sr_stderr_ll := SR_LL_WRN, sr_syslog_ll := SR_LL_ERR, sr_lcb := false }

theorem count_filter_bool {p : sr_error_info_err_t → Bool}
    (x : sr_error_info_err_t) (l : List sr_error_info_err_t) :
    (l.filter p).count x = if p x then l.count x else 0 := by
  induction l with
  | nil => simp
  | cons b bs ih =>
      by_cases hb : p b <;> by_cases hxb : x = b <;>
        simp [List.filter, hb, List.count_cons, hxb, ih] <;> simp_all

theorem lock_msg_rendering (f g : String) :
    sprintf "Locking a mutex failed (%s: %s)." [f, g] =
      "Locking a mutex failed (" ++ (f ++ (": " ++ (g ++ ")."))) := rfl

theorem cond_msg_rendering (f g : String) :
    sprintf "Waiting on a conditional variable failed (%s: %s)." [f, g] =
      "Waiting on a conditional variable failed (" ++ (f ++ (": " ++ (g ++ ")."))) :=
  rfl

theorem lock_cond_msg_ne (f g f2 g2 : String) :
    sprintf "Locking a mutex failed (%s: %s)." [f, g] ≠
      sprintf "Waiting on a conditional variable failed (%s: %s)." [f2, g2] := by
  rw [lock_msg_rendering, cond_msg_rendering]
  intro h
  have h2 := congrArg (fun s => s.data.head?) h
  simp [String.data_append] at h2

/-- C1: the API Boundary Collapse (`sr_api_ret`) returns the success status
on an empty/absent chain and leaves the session's stored chain empty; on a
non-empty chain it returns the code of the chronologically first record,
independent of every later record. -/
theorem C1_collapse_status (s : sr_session_ctx_t) (e : sr_error_info_err_t)
    (rest rest2 : sr_error_info_t) :
    (sr_api_ret s []).2.1 = sr_error_t.SR_ERR_OK ∧
    (sr_api_ret s []).1.err_info = [] ∧
    (sr_api_ret s (e :: rest)).2.1 = e.err_code ∧
    (sr_api_ret s (e :: rest)).2.1 = (sr_api_ret s (e :: rest2)).2.1 :=
  ⟨rfl, rfl, rfl, rfl⟩

/-- C2: `SR_ERRINFO_LOCK` and `SR_ERRINFO_COND` classify the appended record
with the timeout kind exactly when the primitive's return value equals
ETIMEDOUT, and with the generic internal-error kind for every other return
value. -/
theorem C2_wait_failure_timeout_kind (chain : sr_error_info_t)
    (func : String) (ret : Nat) :
    (lastCode (SR_ERRINFO_LOCK chain func ret).1 =
        some sr_error_t.SR_ERR_TIME_OUT ↔ ret = ETIMEDOUT) ∧
    (lastCode (SR_ERRINFO_LOCK chain func ret).1 =
        some sr_error_t.SR_ERR_INTERNAL ↔ ¬ret = ETIMEDOUT) ∧
    (lastCode (SR_ERRINFO_COND chain func ret).1 =
        some sr_error_t.SR_ERR_TIME_OUT ↔ ret = ETIMEDOUT) ∧
    (lastCode (SR_ERRINFO_COND chain func ret).1 =
        some sr_error_t.SR_ERR_INTERNAL ↔ ¬ret = ETIMEDOUT) := by
  by_cases h : ret = ETIMEDOUT <;>
    simp [SR_ERRINFO_LOCK, SR_ERRINFO_COND, sr_errinfo_new, lastCode, mkErr,
      List.getLast?_concat, h]

/-- C3 counterexample: a lock-acquisition timeout record and a condition-wait
timeout record carry the same code `SR_ERR_TIME_OUT` (and the two generic
wait-failure records both carry `SR_ERR_INTERNAL`), refuting the claim that
the four shapes are four mutually distinct kinds/codes. -/
theorem C3_counterexample :
    lastCode (SR_ERRINFO_LOCK [] "sr_rwlock" ETIMEDOUT).1 =
      some sr_error_t.SR_ERR_TIME_OUT ∧
    lastCode (SR_ERRINFO_COND [] "sr_rwlock" ETIMEDOUT).1 =
      some sr_error_t.SR_ERR_TIME_OUT ∧
    lastCode (SR_ERRINFO_LOCK [] "sr_rwlock" ETIMEDOUT).1 =
      lastCode (SR_ERRINFO_COND [] "sr_rwlock" ETIMEDOUT).1 ∧
    lastCode (SR_ERRINFO_LOCK [] "sr_rwlock" 0).1 =
      some sr_error_t.SR_ERR_INTERNAL ∧
    lastCode (SR_ERRINFO_COND [] "sr_rwlock" 0).1 =
      some sr_error_t.SR_ERR_INTERNAL :=
  ⟨rfl, rfl, rfl, rfl, rfl⟩

/-- C3 amended: the four wait-failure shapes share two codes — both timeout
records carry `SR_ERR_TIME_OUT` and both generic wait failures carry
`SR_ERR_INTERNAL` (lock and cond constructors always agree on the code for
the same return value); the lock record and the cond record are
distinguished by their rendered messages, never by their codes. -/
theorem C3_amended_shared_codes (chain chain2 : sr_error_info_t)
    (func func2 : String) (ret : Nat) :
    lastCode (SR_ERRINFO_LOCK chain func ret).1 =
      lastCode (SR_ERRINFO_COND chain2 func2 ret).1 ∧
    lastCode (SR_ERRINFO_LOCK chain func ret).1 =
      some (if ret = ETIMEDOUT then sr_error_t.SR_ERR_TIME_OUT
        else sr_error_t.SR_ERR_INTERNAL) ∧
    lastMsg (SR_ERRINFO_LOCK chain func ret).1 ≠
      lastMsg (SR_ERRINFO_COND chain2 func2 ret).1 := by
  refine ⟨?_, ?_, ?_⟩
  · simp [SR_ERRINFO_LOCK, SR_ERRINFO_COND, sr_errinfo_new, lastCode, mkErr,
      List.getLast?_concat]
  · simp [SR_ERRINFO_LOCK, sr_errinfo_new, lastCode, mkErr,
      List.getLast?_concat]
  · simp [SR_ERRINFO_LOCK, SR_ERRINFO_COND, sr_errinfo_new, lastMsg, mkErr,
      List.getLast?_concat]
    exact lock_cond_msg_ne func (strerror ret) func2 (strerror ret)

/-- C4: `SR_CHECK_ARG_APIRET` falls through when the violation condition is
false; when it holds, it appends exactly one invalid-argument record whose
message names the failing function, immediately performs the full Collapse
(`sr_api_ret`) on the grown chain and returns its session/status (preceded
by the record's creation log call), bypassing the operation body. -/
theorem C4_check_arg_short_circuit (session : sr_session_ctx_t)
    (err_info : sr_error_info_t) (func : String) :
    SR_CHECK_ARG_APIRET false session err_info func = none ∧
    SR_CHECK_ARG_APIRET true session err_info func =
      some ((sr_api_ret session (err_info ++ [inval_arg_record func])).1,
        (sr_api_ret session (err_info ++ [inval_arg_record func])).2.1,
        (SR_LL_ERR, "Invalid arguments for function \"" ++ func ++ "\".") ::
          (sr_api_ret session (err_info ++ [inval_arg_record func])).2.2) ∧
    (err_info ++ [inval_arg_record func]).length = err_info.length + 1 ∧
    (inval_arg_record func).err_code = sr_error_t.SR_ERR_INVAL_ARG ∧
    (∃ pre post, (inval_arg_record func).message = some (pre ++ func ++ post)) :=
  ⟨rfl, rfl, by simp, rfl, ⟨"Invalid arguments for function \"", "\".", rfl⟩⟩

/-- C5: `sr_errinfo_merge` yields a destination of n+k records with the
destination's records first and both parts in original relative order, moves
the records (total multiplicity preserved, source left consumed/empty),
merging an empty source leaves the destination unchanged, and merging into a
non-existent destination creates it from the source. -/
theorem C5_merge_moves_records (A B : sr_error_info_t)
    (r : sr_error_info_err_t) :
    (sr_errinfo_merge A B).1 = A ++ B ∧
    (sr_errinfo_merge A B).2 = [] ∧
    (sr_errinfo_merge A B).1.length = A.length + B.length ∧
    (sr_errinfo_merge A B).1.count r + (sr_errinfo_merge A B).2.count r =
      A.count r + B.count r ∧
    (sr_errinfo_merge A []).1 = A ∧
    (sr_errinfo_merge [] B).1 = B :=
  ⟨rfl, rfl, by simp [sr_errinfo_merge],
    by simp [sr_errinfo_merge, List.count_append],
    by simp [sr_errinfo_merge], rfl⟩

/-- C6: every event delivered by `sr_log` carries the one rendered text
(rendered at most once, each sink admitting the same text against its own
threshold), and with console threshold = warning, syslog threshold = error,
a warning-level message reaches the console sink and not the syslog sink. -/
theorem C6_sink_independence (cfg : LogConfig) (ll : Nat) (fmt : String)
    (args : List String) (ev : Sink × String)
    (hev : ev ∈ sr_log cfg ll fmt args) :
    ev.2 = sprintf fmt args ∧
    Sink.console ∈ (sr_log wrnErrCfg SR_LL_WRN fmt args).map Prod.fst ∧
    Sink.syslog ∉ (sr_log wrnErrCfg SR_LL_WRN fmt args).map Prod.fst := by
  refine ⟨?_, ?_, ?_⟩
  · simp [sr_log] at hev
    rcases hev with ⟨-, h⟩ | ⟨-, h⟩ | ⟨-, h⟩ <;> simp [h]
  · norm_num [sr_log, wrnErrCfg, SR_LL_WRN, SR_LL_ERR]
  · norm_num [sr_log, wrnErrCfg, SR_LL_WRN, SR_LL_ERR]
    decide

/-- Witness for C6 at a concrete input. -/
theorem C6_sink_independence_witness :
    (Sink.console, sprintf "sysrepo message" []).2 = sprintf "sysrepo message" [] ∧
    Sink.console ∈ (sr_log wrnErrCfg SR_LL_WRN "sysrepo message" []).map Prod.fst ∧
    Sink.syslog ∉ (sr_log wrnErrCfg SR_LL_WRN "sysrepo message" []).map Prod.fst :=
  C6_sink_independence wrnErrCfg SR_LL_WRN "sysrepo message" []
    (Sink.console, sprintf "sysrepo message" [])
    (by norm_num [sr_log, wrnErrCfg, SR_LL_WRN, SR_LL_ERR])

/-- C7: on an engine queue of three pending errors, harvest_first
(`sr_errinfo_new_ly_first`) appends exactly one record; harvest_all
(`sr_errinfo_new_ly`) appends exactly three records in queue order and
leaves the engine queue empty; warn_all (`sr_log_wrn_ly`) issues three
warning-level log calls, creates no records (it touches no chain), and
leaves the engine queue non-empty. -/
theorem C7_harvesters_on_three (chain : sr_error_info_t) (e1 e2 e3 : ly_err) :
    (sr_errinfo_new_ly_first chain ⟨[e1, e2, e3]⟩).1 =
      chain ++ [ly_err_record e1] ∧
    (sr_errinfo_new_ly_first chain ⟨[e1, e2, e3]⟩).1.length = chain.length + 1 ∧
    (sr_errinfo_new_ly chain ⟨[e1, e2, e3]⟩ none).1 =
      chain ++ [ly_err_record e1, ly_err_record e2, ly_err_record e3] ∧
    (sr_errinfo_new_ly chain ⟨[e1, e2, e3]⟩ none).1.length = chain.length + 3 ∧
    (sr_errinfo_new_ly chain ⟨[e1, e2, e3]⟩ none).2.1.err = [] ∧
    (sr_log_wrn_ly ⟨[e1, e2, e3]⟩).2 =
      [(SR_LL_WRN, e1.msg), (SR_LL_WRN, e2.msg), (SR_LL_WRN, e3.msg)] ∧
    (sr_log_wrn_ly ⟨[e1, e2, e3]⟩).2.length = 3 ∧
    (sr_log_wrn_ly ⟨[e1, e2, e3]⟩).1 = ⟨[e1, e2, e3]⟩ ∧
    (sr_log_wrn_ly ⟨[e1, e2, e3]⟩).1.err ≠ [] :=
  ⟨rfl, by simp [sr_errinfo_new_ly_first], rfl,
    by simp [sr_errinfo_new_ly], rfl, rfl, rfl, rfl, by simp [sr_log_wrn_ly]⟩

/-- C8: when allocation fails while appending to a chain
(`sr_errinfo_add` with a failing allocation oracle), every previously
accumulated record is preserved unchanged as a prefix, the chain is not
truncated, and an out-of-memory record signals the condition to the
caller. -/
theorem C8_alloc_failure_graceful (chain : sr_error_info_t)
    (code : sr_error_t) (ef ed mf : Option String) (vargs : List String) :
    sr_errinfo_add false chain code ef ed mf vargs =
      chain ++ [mkErr sr_error_t.SR_ERR_NO_MEMORY none none none false] ∧
    (sr_errinfo_add false chain code ef ed mf vargs).take chain.length = chain ∧
    (sr_errinfo_add false chain code ef ed mf vargs).length = chain.length + 1 ∧
    sr_error_t.SR_ERR_NO_MEMORY ∈
      (sr_errinfo_add false chain code ef ed mf vargs).map
        (fun r => r.err_code) :=
  ⟨rfl, by simp [sr_errinfo_add, List.take_left],
    by simp [sr_errinfo_add], by simp [sr_errinfo_add, mkErr]⟩

/-- C9: collapsing a non-empty chain stores the identical ordered chain on
the session; every collapse log call is at error severity; the collapse
emits exactly the records not already logged at creation, in chronological
order (a sublist of the chain); and each record's occurrences are logged
exactly once in total — once at creation when it was created logged, else
once at collapse — so none is duplicated or skipped. -/
theorem C9_collapse_logs_once (s : sr_session_ctx_t)
    (e x : sr_error_info_err_t) (rest : sr_error_info_t) (c : LogCall)
    (hc : c ∈ (sr_api_ret s (e :: rest)).2.2) :
    (sr_api_ret s (e :: rest)).1.err_info = e :: rest ∧
    c.1 = SR_LL_ERR ∧
    (sr_api_ret s (e :: rest)).2.2 =
      (collapse_emits (e :: rest)).map (fun r => (SR_LL_ERR, r.message.getD "")) ∧
    (collapse_emits (e :: rest)).Sublist (e :: rest) ∧
    (e :: rest).count x * (if x.logged then 1 else 0) +
        (collapse_emits (e :: rest)).count x = (e :: rest).count x := by
  refine ⟨rfl, ?_, rfl, List.filter_sublist _, ?_⟩
  · obtain ⟨r, hr, hrc⟩ := List.mem_map.1 hc
    rw [← hrc]
  · rw [collapse_emits, count_filter_bool]
    by_cases hx : x.logged <;> simp [hx]

/-- A one-record chain whose record was not logged at creation
(the `sr_errinfo_add` path). -/
def c9_chain_record : sr_error_info_err_t :=
  mkErr sr_error_t.SR_ERR_INTERNAL (some "Internal error (log.c:1).")
    none none false

/-- Witness for C9 at a concrete input. -/
theorem C9_collapse_logs_once_witness :
    (sr_api_ret ⟨[]⟩ [c9_chain_record]).1.err_info = [c9_chain_record] ∧
    (SR_LL_ERR, "Internal error (log.c:1).").1 = SR_LL_ERR ∧
    (sr_api_ret ⟨[]⟩ [c9_chain_record]).2.2 =
      (collapse_emits [c9_chain_record]).map
        (fun r => (SR_LL_ERR, r.message.getD "")) ∧
    (collapse_emits [c9_chain_record]).Sublist [c9_chain_record] ∧
    [c9_chain_record].count c9_chain_record *
        (if c9_chain_record.logged then 1 else 0) +
        (collapse_emits [c9_chain_record]).count c9_chain_record =
      [c9_chain_record].count c9_chain_record :=
  C9_collapse_logs_once ⟨[]⟩ c9_chain_record c9_chain_record []
    (SR_LL_ERR, "Internal error (log.c:1).")
    (by simp [sr_api_ret, collapse_emits, c9_chain_record, mkErr])

/-- C10: `sr_errinfo_new` accepts a NULL message format — the shape used by
`SR_ERRINFO_MEM` — and still appends exactly one well-formed out-of-memory
record with no rendered message, emitting no log call and never failing. -/
theorem C10_mem_record_null_format (chain : sr_error_info_t) :
    SR_ERRINFO_MEM chain =
      (chain ++ [mkErr sr_error_t.SR_ERR_NO_MEMORY none none none false], []) ∧
    (SR_ERRINFO_MEM chain).1.length = chain.length + 1 ∧
    lastCode (SR_ERRINFO_MEM chain).1 = some sr_error_t.SR_ERR_NO_MEMORY ∧
    lastMsg (SR_ERRINFO_MEM chain).1 = some none ∧
    (SR_ERRINFO_MEM chain).2 = [] :=
  ⟨rfl, by simp [SR_ERRINFO_MEM, sr_errinfo_new],
    by simp [SR_ERRINFO_MEM, sr_errinfo_new, lastCode, mkErr,
      List.getLast?_concat],
    by simp [SR_ERRINFO_MEM, sr_errinfo_new, lastMsg, mkErr,
      List.getLast?_concat],
    rfl⟩

end Sysrepo
